import Mathlib

/-!
Shallow embedding of the HOLOKIA-AVATAR front-end orchestration code
(lipsync-demo/src/components/ChatInterface.jsx, config/tts-service.js,
config/api-config.js, config/stt-service.js).

JavaScript values that flow through the orchestration (remote response
bodies, message texts) are modelled by `JsVal`; JS objects by association
lists `JsObj` with first-key lookup and `undefined` for absent fields.
Remote services are opaque collaborators: their responses are parameters
of the modelled handlers.  Each handler is modelled as a function from
its inputs to the ordered trace of state-changing effects it performs
(`Ev`), so that claims about what is appended, set or sent — and in what
order — become statements about the trace.
-/

/-- A JavaScript value as used by the orchestration code: strings,
booleans, `undefined` (absent object field) and `null`. -/
inductive JsVal where
  | str (s : String)
  | bool (b : Bool)
  | undefined
  | null
deriving DecidableEq, Repr

/-- A JavaScript object, as an association list of fields. -/
def JsObj : Type := List (String × JsVal)

instance : DecidableEq JsObj := by unfold JsObj; infer_instance

instance : Repr JsObj := by unfold JsObj; infer_instance

/-- Field access `o.k`: the field value, or `undefined` when absent. -/
def getField (o : JsObj) (k : String) : JsVal :=
  (o.lookup k).getD .undefined

/-- JavaScript truthiness for the values we model: `""`, `false`,
`undefined` and `null` are falsy. -/
def jsTruthy : JsVal → Bool
  | .str s => !(s == "")
  | .bool b => b
  | .undefined => false
  | .null => false

/-- String interpolation of a JS value inside a template literal. -/
def jsInterp : JsVal → String
  | .str s => s
  | .bool b => if b then "true" else "false"
  | .undefined => "undefined"
  | .null => "null"

/-- A character removed by JavaScript `String.prototype.trim`:
ECMAScript WhiteSpace and LineTerminator code points. -/
def isJsSpace (c : Char) : Bool :=
  c = ' ' || c = '\t' || c = '\n' || c = '\r' ||
  c.toNat = 0x0b || c.toNat = 0x0c || c.toNat = 0xa0 ||
  c.toNat = 0x1680 || (0x2000 ≤ c.toNat && c.toNat ≤ 0x200a) ||
  c.toNat = 0x2028 || c.toNat = 0x2029 || c.toNat = 0x202f ||
  c.toNat = 0x205f || c.toNat = 0x3000 || c.toNat = 0xfeff

/-- JavaScript `s.trim()`: strip leading and trailing whitespace. -/
def jsTrim (s : String) : String :=
  String.mk ((((s.data.dropWhile isJsSpace).reverse.dropWhile
    isJsSpace).reverse))

/-- One supported language entry of the `LANGUAGES` table
(ChatInterface.jsx lines 13–17). -/
structure LangEntry where
  value : String
  label : String
  gtts : String
deriving DecidableEq, Repr

/-- The `LANGUAGES` table of ChatInterface.jsx. -/
def LANGUAGES : List LangEntry :=
  [⟨"en", "English", "en"⟩,
   ⟨"fr", "Français", "fr"⟩,
   ⟨"ar", "العربية", "ar"⟩]

/-- The static franc-code → supported-tag table inside `detectLanguage`
(ChatInterface.jsx lines 29–53).  The JS object literal repeats the key
`"arz"` with the same value; object semantics keep one entry. -/
def francLangMapping : List (String × String) :=
  [("eng", "en"),
   ("fra", "fr"),
   ("franc ", "fr"),
   ("ara", "ar"),
   ("arb", "ar"),
   ("arz", "ar"),
   ("acm", "ar"),
   ("afb", "ar"),
   ("ajp", "ar"),
   ("apc", "ar"),
   ("apd", "ar"),
   ("ary", "ar"),
   ("auz", "ar"),
   ("avl", "ar"),
   ("ayh", "ar"),
   ("ayl", "ar"),
   ("ayn", "ar"),
   ("ayp", "ar"),
   ("bbz", "ar"),
   ("pga", "ar"),
   ("shu", "ar"),
   ("ssh", "ar")]

/-- `detectLanguage` (ChatInterface.jsx lines 22–68).  The third-party
`franc` detector is an opaque collaborator, passed as a function
parameter; the embedding quantifies over its behaviour. -/
def detectLanguage (franc : String → String) (text : String) : String :=
  if text = "" ∨ (jsTrim text).length < 3 then "en"
  else
    let detected := franc (jsTrim text)
    let mappedLang := (francLangMapping.lookup detected).getD detected
    if LANGUAGES.any (fun l => l.value == mappedLang) then mappedLang
    else "en"

/-- A stored chat Message: `{text, sender}` (ChatInterface.jsx line 204,
line 230).  `sender` is `"user"` or `"avatar"` for messages the
controller creates; the persisted list is modelled with an arbitrary
string sender. -/
structure ChatMsg where
  text : JsVal
  sender : String
deriving DecidableEq, Repr

/-- A conversation-history wire entry `{role, content}` sent to the chat
service (ChatInterface.jsx lines 212–216). -/
structure HistEntry where
  role : String
  content : JsVal
deriving DecidableEq, Repr

/-- One state-changing effect performed by the Chat UI Controller during
a turn, in program order.  `netChat`/`netTTS` mark the outbound network
requests; the other constructors mark React state setters. -/
inductive Ev where
  | appendMsg (sender : String) (text : JsVal)
  | clearInput
  | sendFeedback
  | setLoading (b : Bool)
  | notif (m : Option String)
  | netChat (history : List HistEntry) (detectedLanguage : String)
  | netTTS (text : JsVal) (audioId : String) (lang : String) (speaker : String)
  | setAudioFile (path : String)
  | setError (m : JsVal)
deriving DecidableEq, Repr

/-- The trailing context window built by `handleSendMessage`
(ChatInterface.jsx lines 212–216): `messages.slice(-5)` mapped to
`{role, content}`, then the current user message pushed. -/
def conversationHistory (messages : List ChatMsg) (message : String) :
    List HistEntry :=
  ((messages.drop (messages.length - 5)).map fun m =>
    ⟨if m.sender = "user" then "user" else "assistant", m.text⟩)
  ++ [⟨"user", .str message⟩]

/-- `generateAudioAndLipsync` (ChatInterface.jsx lines 176–199), given
the result object `ttsResp` of the TTS client (the TTS client itself never
throws: tts-service.js catches transport errors and returns the sentinel
`{error: true, message}`).  Returns the effect trace and the JS value
the function returns to `handleSendMessage` (`null` on the error branch,
`result.audioPath` otherwise). -/
def generateAudioAndLipsync (text : JsVal) (gttsLang : String)
    (newAudioId : String) (ttsResp : JsObj) : List Ev × JsVal :=
  let pre : List Ev :=
    [.notif (some "Génération audio et synchronisation labiale..."),
     .netTTS text newAudioId gttsLang "female-pt-4"]
  if jsTruthy (getField ttsResp "error") then
    (pre ++
      [.setError (if jsTruthy (getField ttsResp "message")
                  then getField ttsResp "message"
                  else .str "Erreur lors de la génération audio"),
       .notif none],
     .null)
  else
    (pre ++ [.setAudioFile
        ("/audios/" ++ jsInterp (getField ttsResp "audioId") ++ ".mp3")],
     getField ttsResp "audioPath")

/-- `handleSendMessage` (ChatInterface.jsx lines 201–239), as the trace
of effects of one turn.  The result `chatResp` of the remote chat client and
the result `ttsResp` of the remote TTS client are parameters (both clients
catch transport errors and return the `{error: true, message}` sentinel,
so neither call throws).  `newAudioId` stands for the
`audio-${Date.now()}` identifier.  When `detectedLang` is falsy the
`gttsLang` line of `generateAudioAndLipsync` dereferences the undefined
identifier `lang`; the resulting ReferenceError propagates to the
`catch` of `handleSendMessage`. -/
def handleSendMessage (message : String) (messages : List ChatMsg)
    (detectedLang : String) (newAudioId : String)
    (chatResp ttsResp : JsObj) : List Ev :=
  if jsTrim message = "" then []
  else
    let pre : List Ev :=
      [.appendMsg "user" (.str message), .clearInput, .sendFeedback,
       .setLoading true, .notif (some "Génération de la réponse..."),
       .netChat (conversationHistory messages message) detectedLang]
    let rtext := getField chatResp "text"
    if detectedLang = "" then
      pre ++
        [.notif (some "Génération audio et synchronisation labiale..."),
         .setError (.str "lang is not defined"), .notif none,
         .setLoading false]
    else
      let gen := generateAudioAndLipsync rtext detectedLang newAudioId
        ttsResp
      pre ++ gen.1 ++
        (if jsTruthy gen.2 then
          [.appendMsg "avatar" rtext, .notif none]
         else
          [.setError (.str "Erreur lors de la génération de l\x27audio")]) ++
        [.setLoading false]

/-- Does this effect append an avatar Message? -/
def isAvatarAppend : Ev → Bool
  | .appendMsg s _ => s == "avatar"
  | _ => false

/-- Does this effect append a Message (any sender)? -/
def isAppend : Ev → Bool
  | .appendMsg _ _ => true
  | _ => false

/-- Does this effect update the Audio Reference? -/
def isSetAudio : Ev → Bool
  | .setAudioFile _ => true
  | _ => false

/-- Does this effect surface an error notification? -/
def isSetError : Ev → Bool
  | .setError _ => true
  | _ => false

/-- Is this effect an outbound network request (chat or TTS)? -/
def isNetCall : Ev → Bool
  | .netChat _ _ => true
  | .netTTS _ _ _ _ => true
  | _ => false

/-- Does this effect turn the loading indicator on? -/
def isLoadingOn : Ev → Bool
  | .setLoading b => b
  | _ => false

/-- One step of the per-frame sampling loop `analyzeAudio`
(ChatInterface.jsx lines 126–137): state is the `detectedVisemes` log
and `prevViseme.current` (initially `null`, hence `Option`); a sampled
label is appended only when it differs from the previous sample. -/
def visemeStep (st : List String × Option String) (v : String) :
    List String × Option String :=
  if st.2 ≠ some v then (st.1 ++ [v], some v) else st

/-- The `detectedVisemes` log after the sampling loop has consumed the
given per-frame sequence of `lipsyncManager.viseme` labels, starting
from the empty log and `prevViseme.current = null`. -/
def detectedVisemesLog (samples : List String) : List String :=
  (samples.foldl visemeStep ([], none)).1

/-- The outcome of the STT server for one upload, as seen through axios:
a parsed response body, or a failure whose `response.data.detail` may be
absent. -/
inductive SttOutcome where
  | resp (data : JsObj)
  | httpErr (detail : JsVal)
deriving DecidableEq, Repr

/-- `sttService.generateText` (stt-service.js lines 5–37).  `isFile`
models `audioFile instanceof File`; a non-File argument throws a local
error that the catch inside the function turns into the sentinel (the local
error has no `response`, so the default message is used) before any
upload.  Returns the result object and whether a network call was
made. -/
def sttGenerateText (isFile : Bool) (remote : SttOutcome) :
    JsObj × Bool :=
  if !isFile then
    ([("error", .bool true),
      ("message", .str "Échec lors de la transcription de l\x27audio")],
     false)
  else
    match remote with
    | .resp data =>
      ([("text", getField data "text"),
        ("lang", getField data "lang"),
        ("confidence", getField data "confidence")],
       true)
    | .httpErr detail =>
      ([("error", .bool true),
        ("message", if jsTruthy detail then detail
                    else .str "Échec lors de la transcription de l\x27audio")],
       true)

/-- The component state touched by conversation reset: the in-memory
message list, the `localStorage` value under key `"chatMessages"`
(`none` = key absent), the detected language, the language-indicator
flag and the transient notification. -/
structure UiState where
  messages : List ChatMsg
  storage : Option String
  detectedLang : String
  showLangIndicator : Bool
  notification : Option String
deriving DecidableEq, Repr

/-- `JSON.stringify` of a message field value.  `JSON.stringify` drops
object fields holding `undefined`; that case is handled by
`serializeMsg`. -/
def jsonOfVal : JsVal → String
  | .str s => "\"" ++ s ++ "\""
  | .bool b => if b then "true" else "false"
  | .undefined => "undefined"
  | .null => "null"

/-- `JSON.stringify` of one stored message object. -/
def serializeMsg (m : ChatMsg) : String :=
  if m.text = JsVal.undefined then
    "\x7b\"sender\":\"" ++ m.sender ++ "\"\x7d"
  else
    "\x7b\"text\":" ++ jsonOfVal m.text ++ ",\"sender\":\"" ++
      m.sender ++ "\"\x7d"

/-- `JSON.stringify(messages)` as persisted by the `[messages]` effect
(ChatInterface.jsx line 140). -/
def serializeMessages (ms : List ChatMsg) : String :=
  "[" ++ String.intercalate "," (ms.map serializeMsg) ++ "]"

/-- `handleResetChat` (ChatInterface.jsx lines 241–248): clears the
message list, removes the persisted copy, resets the detected language
and indicator, and shows a transient notification. -/
def handleResetChat (s : UiState) : UiState :=
  { s with
    messages := [],
    storage := none,
    detectedLang := "en",
    showLangIndicator := false,
    notification := some "Conversation réinitialisée !" }

/-- The `[messages]` persistence effect (ChatInterface.jsx lines
139–142): after every change of `messages` — including the one made by
`handleResetChat` — it writes `JSON.stringify(messages)` back under the
`"chatMessages"` key. -/
def persistMessagesEffect (s : UiState) : UiState :=
  { s with storage := some (serializeMessages s.messages) }

/-- One full reset, as React executes it: the click handler runs, then
the `[messages]` effect fires on the committed state. -/
def resetChatCycle (s : UiState) : UiState :=
  persistMessagesEffect (handleResetChat s)

/-- What the AudioRecorder delivers to `handleAudioTranscription`: a
plain transcript string, a result object, or a nullish value. -/
inductive TranscriptionInput where
  | str (s : String)
  | obj (o : JsObj)
  | nullish
deriving DecidableEq, Repr

/-- An effect of `handleAudioTranscription`. -/
inductive TxEv where
  | setMessage (v : JsVal)
  | scheduleSend (ms : Nat)
  | setDetectedLang (l : String)
  | setLangNotification (m : String)
deriving DecidableEq, Repr

/-- The Whisper-language mapping object literal inside
`handleAudioTranscription` (ChatInterface.jsx lines 294–299). -/
def whisperLangMapping : List (String × String) :=
  [("en", "en"), ("fr", "fr"), ("ar", "ar"), ("ar-MA", "ar")]

/-- `handleAudioTranscription` (ChatInterface.jsx lines 282–309).  For a
string it fills the input box and schedules a send after 100 ms.  For an
object, `{ text, lang: detectedLang }` is destructured from
`transcriptionResult || \x7b\x7d`; when `lang` is truthy the code
evaluates `langMapping.get(detectedLang, detectedLang)` — but
`langMapping` is a plain object literal with no `get` method, so the
call raises a TypeError before `setMessage` runs; the handler has no
try/catch, so the exception escapes (`Except.error`). -/
def handleAudioTranscription (inp : TranscriptionInput) :
    Except String (List TxEv) :=
  match inp with
  | .str s => .ok [.setMessage (.str s), .scheduleSend 100]
  | other =>
    let o : JsObj := match other with
      | .obj o => o
      | _ => []
    let text := getField o "text"
    let detectedLang := getField o "lang"
    if jsTruthy detectedLang then
      .error "TypeError: langMapping.get is not a function"
    else
      .ok [.setMessage (if jsTruthy text then text else .str ""),
           .scheduleSend 100]

/-- The supported-tag check `LANGUAGES.some(l => l.value === mappedLang)`
holds exactly for the three supported tags. -/
lemma LANGUAGES_any_value_iff (x : String) :
    (LANGUAGES.any fun l => l.value == x) = true ↔
      x = "en" ∨ x = "fr" ∨ x = "ar" := by
  simp [LANGUAGES, List.any_eq_true]
  constructor
  · rintro (h | h | h) <;> simp_all
  · rintro (h | h | h) <;> simp_all

/-- C3: `detectLanguage` always returns a member of the closed set
`{"en", "fr", "ar"}`; for inputs whose trimmed length is below 3 it
returns `"en"`; and when the detected fine-grained code is absent from
the static mapping table and is not itself a supported tag, it returns
`"en"` — for every behaviour of the underlying `franc` detector. -/
theorem detectLanguage_closed_set (franc : String → String)
    (text : String) :
    detectLanguage franc text ∈ (["en", "fr", "ar"] : List String)
    ∧ ((jsTrim text).length < 3 → detectLanguage franc text = "en")
    ∧ (francLangMapping.lookup (franc (jsTrim text)) = none
        ∧ franc (jsTrim text) ∉ (["en", "fr", "ar"] : List String)
       → detectLanguage franc text = "en") := by
  unfold detectLanguage
  by_cases h0 : text = "" ∨ (jsTrim text).length < 3
  · simp [h0]
  · rw [if_neg h0]
    push_neg at h0
    refine ⟨?_, ?_, ?_⟩
    · by_cases h1 : (LANGUAGES.any fun l =>
          l.value == (francLangMapping.lookup (franc (jsTrim text))).getD
            (franc (jsTrim text))) = true
      · rw [if_pos h1]
        rcases (LANGUAGES_any_value_iff _).mp h1 with h | h | h <;>
          simp [h]
      · rw [if_neg h1]; simp
    · intro hlen
      exact absurd hlen (by omega)
    · rintro ⟨hnone, hmem⟩
      simp only [hnone, Option.getD_none]
      rw [if_neg]
      intro hany
      rcases (LANGUAGES_any_value_iff _).mp hany with h | h | h <;>
        simp [h] at hmem

/-- Witness for `detectLanguage_closed_set`: a 2-character input maps to
`"en"`, and a detected code outside the table and outside the supported
set ("deu") maps to `"en"`. -/
theorem detectLanguage_closed_set_witness :
    detectLanguage (fun _ => "deu") "hi" = "en"
    ∧ detectLanguage (fun _ => "deu") "Guten Morgen" = "en" := by
  refine ⟨?_, ?_⟩
  · exact (detectLanguage_closed_set (fun _ => "deu") "hi").2.1 (by decide)
  · exact (detectLanguage_closed_set (fun _ => "deu") "Guten Morgen").2.2
      ⟨by decide, by decide⟩

/-- The trace of a turn whose TTS result is not the error sentinel:
the Audio Reference is set right after the TTS request, and the avatar
append happens afterwards, only if `result.audioPath` is truthy. -/
lemma handleSendMessage_tts_ok (message : String)
    (messages : List ChatMsg) (detectedLang newAudioId : String)
    (chatResp ttsResp : JsObj) (hmsg : ¬ jsTrim message = "")
    (hlang : ¬ detectedLang = "")
    (htts : jsTruthy (getField ttsResp "error") = false) :
    handleSendMessage message messages detectedLang newAudioId chatResp
        ttsResp =
      [.appendMsg "user" (.str message), .clearInput, .sendFeedback,
       .setLoading true, .notif (some "Génération de la réponse..."),
       .netChat (conversationHistory messages message) detectedLang,
       .notif (some "Génération audio et synchronisation labiale..."),
       .netTTS (getField chatResp "text") newAudioId detectedLang
         "female-pt-4",
       .setAudioFile
         ("/audios/" ++ jsInterp (getField ttsResp "audioId") ++ ".mp3")]
      ++ (if jsTruthy (getField ttsResp "audioPath") then
            [.appendMsg "avatar" (getField chatResp "text"), .notif none]
          else
            [.setError (.str "Erreur lors de la génération de l\x27audio")])
      ++ [.setLoading false] := by
  simp [handleSendMessage, generateAudioAndLipsync, hmsg, hlang, htts]

/-- C2 (amended): on a successful chat turn with a successful TTS
result carrying a truthy `audioPath`, exactly one avatar Message is
appended and exactly one Audio Reference update occurs — and the Audio
Reference update comes first: `generateAudioAndLipsync` calls
`setAudioFile` before `handleSendMessage` appends the avatar
Message. -/
theorem turn_success_one_append_one_audio (message : String)
    (messages : List ChatMsg) (detectedLang newAudioId : String)
    (chatResp ttsResp : JsObj) (hmsg : ¬ jsTrim message = "")
    (hlang : ¬ detectedLang = "")
    (_hchat : jsTruthy (getField chatResp "error") = false)
    (htts : jsTruthy (getField ttsResp "error") = false)
    (hpath : jsTruthy (getField ttsResp "audioPath") = true) :
    ((handleSendMessage message messages detectedLang newAudioId chatResp
        ttsResp).filter isAvatarAppend).length = 1
    ∧ ((handleSendMessage message messages detectedLang newAudioId
        chatResp ttsResp).filter isSetAudio).length = 1
    ∧ (handleSendMessage message messages detectedLang newAudioId
        chatResp ttsResp).findIdx isSetAudio <
      (handleSendMessage message messages detectedLang newAudioId
        chatResp ttsResp).findIdx isAvatarAppend := by
  rw [handleSendMessage_tts_ok message messages detectedLang newAudioId
    chatResp ttsResp hmsg hlang htts, if_pos hpath]
  refine ⟨?_, ?_, ?_⟩ <;>
    simp [List.filter, List.findIdx, List.findIdx.go, isAvatarAppend,
      isSetAudio]

/-- Witness for `turn_success_one_append_one_audio` at a concrete
successful chat + successful TTS turn. -/
theorem turn_success_one_append_one_audio_witness :
    ((handleSendMessage "Hello" [] "en" "audio-1"
        [("text", JsVal.str "Hi there")]
        [("audioId", JsVal.str "audio-1"),
         ("audioPath", JsVal.str "/audios/audio-1.mp3")]).filter
        isAvatarAppend).length = 1
    ∧ ((handleSendMessage "Hello" [] "en" "audio-1"
        [("text", JsVal.str "Hi there")]
        [("audioId", JsVal.str "audio-1"),
         ("audioPath", JsVal.str "/audios/audio-1.mp3")]).filter
        isSetAudio).length = 1
    ∧ (handleSendMessage "Hello" [] "en" "audio-1"
        [("text", JsVal.str "Hi there")]
        [("audioId", JsVal.str "audio-1"),
         ("audioPath", JsVal.str "/audios/audio-1.mp3")]).findIdx
        isSetAudio <
      (handleSendMessage "Hello" [] "en" "audio-1"
        [("text", JsVal.str "Hi there")]
        [("audioId", JsVal.str "audio-1"),
         ("audioPath", JsVal.str "/audios/audio-1.mp3")]).findIdx
        isAvatarAppend :=
  turn_success_one_append_one_audio "Hello" [] "en" "audio-1"
    [("text", JsVal.str "Hi there")]
    [("audioId", JsVal.str "audio-1"),
     ("audioPath", JsVal.str "/audios/audio-1.mp3")]
    (by decide) (by decide) (by decide) (by decide) (by decide)

/-- C2 (counterexample to the stated order): on a concrete successful
chat + successful TTS turn the avatar-Message append does NOT precede
the Audio Reference update — `setAudioFile` runs first. -/
theorem avatar_append_not_before_audio_update :
    ¬ ((handleSendMessage "Hello" [] "en" "audio-1"
        [("text", JsVal.str "Hi there")]
        [("audioId", JsVal.str "audio-1"),
         ("audioPath", JsVal.str "/audios/audio-1.mp3")]).findIdx
        isAvatarAppend <
      (handleSendMessage "Hello" [] "en" "audio-1"
        [("text", JsVal.str "Hi there")]
        [("audioId", JsVal.str "audio-1"),
         ("audioPath", JsVal.str "/audios/audio-1.mp3")]).findIdx
        isSetAudio) := by
  decide

/-- C1 (failing input): `handleSendMessage` never checks the chat
client `error` flag.  On a turn where the chat client returned the
sentinel `{error: true, message: "boom"}` and the TTS client then
succeeded, the controller appends an avatar Message whose text is
`undefined` (the sentinel has no `text` field) and surfaces no error
notification — contradicting the required behaviour. -/
theorem chat_error_sentinel_appends_avatar :
    Ev.appendMsg "avatar" JsVal.undefined ∈
      handleSendMessage "Hello" [] "en" "audio-1"
        [("error", JsVal.bool true), ("message", JsVal.str "boom")]
        [("audioId", JsVal.str "audio-1"),
         ("audioPath", JsVal.str "/audios/audio-1.mp3")]
    ∧ ((handleSendMessage "Hello" [] "en" "audio-1"
        [("error", JsVal.bool true), ("message", JsVal.str "boom")]
        [("audioId", JsVal.str "audio-1"),
         ("audioPath", JsVal.str "/audios/audio-1.mp3")]).filter
        isAvatarAppend).length = 1
    ∧ ((handleSendMessage "Hello" [] "en" "audio-1"
        [("error", JsVal.bool true), ("message", JsVal.str "boom")]
        [("audioId", JsVal.str "audio-1"),
         ("audioPath", JsVal.str "/audios/audio-1.mp3")]).filter
        isSetError).length = 0 := by
  decide

/-- C4: the conversation-history payload a (non-empty-input) turn sends
to the chat service is the last `min 5` prior messages plus the current
one — never more than 6 entries — and every window entry carries role
`"user"` or `"assistant"` chosen by its sender; each prior message in
the window appears mapped according to its sender. -/
theorem conversationHistory_window_bounded (messages : List ChatMsg)
    (message : String) (detectedLang newAudioId : String)
    (chatResp ttsResp : JsObj) (hmsg : ¬ jsTrim message = "") :
    Ev.netChat (conversationHistory messages message) detectedLang ∈
      handleSendMessage message messages detectedLang newAudioId
        chatResp ttsResp
    ∧ (conversationHistory messages message).length =
        min messages.length 5 + 1
    ∧ (conversationHistory messages message).length ≤ 6
    ∧ (∀ e ∈ conversationHistory messages message,
        e.role = "user" ∨ e.role = "assistant")
    ∧ (∀ m ∈ messages.drop (messages.length - 5),
        HistEntry.mk (if m.sender = "user" then "user" else "assistant")
          m.text ∈ conversationHistory messages message) := by
  refine ⟨?_, ?_, ?_, ?_, ?_⟩
  · by_cases hd : detectedLang = "" <;>
      simp [handleSendMessage, hmsg, hd]
  · simp [conversationHistory]
    omega
  · simp [conversationHistory]
    omega
  · intro e he
    simp only [conversationHistory, List.mem_append, List.mem_map,
      List.mem_singleton] at he
    rcases he with ⟨m, _, rfl⟩ | rfl
    · by_cases hs : m.sender = "user" <;> simp [hs]
    · left; rfl
  · intro m hm
    exact List.mem_append_left _ (List.mem_map_of_mem _ hm)

/-- Witness for `conversationHistory_window_bounded`: a concrete turn
over a 7-message history. -/
theorem conversationHistory_window_bounded_witness :
    Ev.netChat (conversationHistory
        [⟨JsVal.str "m1", "user"⟩, ⟨JsVal.str "m2", "avatar"⟩,
         ⟨JsVal.str "m3", "user"⟩, ⟨JsVal.str "m4", "avatar"⟩,
         ⟨JsVal.str "m5", "user"⟩, ⟨JsVal.str "m6", "avatar"⟩,
         ⟨JsVal.str "m7", "user"⟩] "Hello") "en" ∈
      handleSendMessage "Hello"
        [⟨JsVal.str "m1", "user"⟩, ⟨JsVal.str "m2", "avatar"⟩,
         ⟨JsVal.str "m3", "user"⟩, ⟨JsVal.str "m4", "avatar"⟩,
         ⟨JsVal.str "m5", "user"⟩, ⟨JsVal.str "m6", "avatar"⟩,
         ⟨JsVal.str "m7", "user"⟩] "en" "audio-1" [] []
    ∧ (conversationHistory
        [⟨JsVal.str "m1", "user"⟩, ⟨JsVal.str "m2", "avatar"⟩,
         ⟨JsVal.str "m3", "user"⟩, ⟨JsVal.str "m4", "avatar"⟩,
         ⟨JsVal.str "m5", "user"⟩, ⟨JsVal.str "m6", "avatar"⟩,
         ⟨JsVal.str "m7", "user"⟩] "Hello").length =
      min 7 5 + 1
    ∧ (conversationHistory
        [⟨JsVal.str "m1", "user"⟩, ⟨JsVal.str "m2", "avatar"⟩,
         ⟨JsVal.str "m3", "user"⟩, ⟨JsVal.str "m4", "avatar"⟩,
         ⟨JsVal.str "m5", "user"⟩, ⟨JsVal.str "m6", "avatar"⟩,
         ⟨JsVal.str "m7", "user"⟩] "Hello").length ≤ 6
    ∧ (∀ e ∈ conversationHistory
        [⟨JsVal.str "m1", "user"⟩, ⟨JsVal.str "m2", "avatar"⟩,
         ⟨JsVal.str "m3", "user"⟩, ⟨JsVal.str "m4", "avatar"⟩,
         ⟨JsVal.str "m5", "user"⟩, ⟨JsVal.str "m6", "avatar"⟩,
         ⟨JsVal.str "m7", "user"⟩] "Hello",
        e.role = "user" ∨ e.role = "assistant")
    ∧ (∀ m ∈ ([⟨JsVal.str "m1", "user"⟩, ⟨JsVal.str "m2", "avatar"⟩,
         ⟨JsVal.str "m3", "user"⟩, ⟨JsVal.str "m4", "avatar"⟩,
         ⟨JsVal.str "m5", "user"⟩, ⟨JsVal.str "m6", "avatar"⟩,
         ⟨JsVal.str "m7", "user"⟩] : List ChatMsg).drop (7 - 5),
        HistEntry.mk (if m.sender = "user" then "user" else "assistant")
          m.text ∈ conversationHistory
        [⟨JsVal.str "m1", "user"⟩, ⟨JsVal.str "m2", "avatar"⟩,
         ⟨JsVal.str "m3", "user"⟩, ⟨JsVal.str "m4", "avatar"⟩,
         ⟨JsVal.str "m5", "user"⟩, ⟨JsVal.str "m6", "avatar"⟩,
         ⟨JsVal.str "m7", "user"⟩] "Hello") :=
  conversationHistory_window_bounded
    [⟨JsVal.str "m1", "user"⟩, ⟨JsVal.str "m2", "avatar"⟩,
     ⟨JsVal.str "m3", "user"⟩, ⟨JsVal.str "m4", "avatar"⟩,
     ⟨JsVal.str "m5", "user"⟩, ⟨JsVal.str "m6", "avatar"⟩,
     ⟨JsVal.str "m7", "user"⟩] "Hello" "en" "audio-1" [] [] (by decide)

/-- Invariant of the sampling loop: starting from a log with no equal
consecutive entries whose last entry matches `prevViseme.current`, the
loop preserves both properties and only ever appends. -/
lemma visemeFold_invariant (samples : List String) :
    ∀ (log : List String) (prev : Option String),
      List.Chain' (fun a b => a ≠ b) log → log.getLast? = prev →
      List.Chain' (fun a b => a ≠ b)
          (samples.foldl visemeStep (log, prev)).1
      ∧ (samples.foldl visemeStep (log, prev)).1.getLast? =
          (samples.foldl visemeStep (log, prev)).2
      ∧ ∃ t, (samples.foldl visemeStep (log, prev)).1 = log ++ t := by
  induction samples with
  | nil =>
    intro log prev hc hl
    exact ⟨hc, hl, [], by simp⟩
  | cons v vs ih =>
    intro log prev hc hl
    simp only [List.foldl_cons]
    by_cases hv : prev ≠ some v
    · have hstep : visemeStep (log, prev) v = (log ++ [v], some v) := by
        simp [visemeStep, hv]
      rw [hstep]
      have hc' : List.Chain' (fun a b => a ≠ b) (log ++ [v]) := by
        refine List.chain'_append.2 ⟨hc, List.chain'_singleton v, ?_⟩
        intro x hx y hy
        simp only [List.head?_cons, Option.mem_def, Option.some.injEq]
          at hy
        subst hy
        rw [hl] at hx
        intro hxy
        exact hv (by simpa [hxy] using hx)
      have hl' : (log ++ [v]).getLast? = some v := by simp
      obtain ⟨h1, h2, t, ht⟩ := ih (log ++ [v]) (some v) hc' hl'
      exact ⟨h1, h2, v :: t, by simpa using ht⟩
    · push_neg at hv
      have hstep : visemeStep (log, prev) v = (log, prev) := by
        simp [visemeStep, hv]
      rw [hstep]
      exact ih log prev hc hl

/-- C5: the viseme sample log never holds two identical consecutive
entries, and it is append-only — consuming further frames only extends
the log already produced. -/
theorem detectedVisemes_dedup_append_only (samples more : List String) :
    List.Chain' (fun a b => a ≠ b) (detectedVisemesLog samples)
    ∧ ∃ t, detectedVisemesLog (samples ++ more) =
        detectedVisemesLog samples ++ t := by
  have base := visemeFold_invariant samples [] none List.chain'_nil rfl
  refine ⟨base.1, ?_⟩
  have hsplit : (samples ++ more).foldl visemeStep ([], none) =
      more.foldl visemeStep (samples.foldl visemeStep ([], none)) :=
    List.foldl_append _ _ _ _
  have hrest := visemeFold_invariant more
    (samples.foldl visemeStep ([], none)).1
    (samples.foldl visemeStep ([], none)).2 base.1 base.2.1
  obtain ⟨_, _, t, ht⟩ := hrest
  refine ⟨t, ?_⟩
  rw [detectedVisemesLog, hsplit, detectedVisemesLog]
  rw [← ht]

/-- C6: a submission whose input trims to the empty string produces no
effect at all — no Message append, no network request, and the loading
indicator is never turned on. -/
theorem empty_input_no_effects (message : String)
    (messages : List ChatMsg) (detectedLang newAudioId : String)
    (chatResp ttsResp : JsObj) (h : jsTrim message = "") :
    handleSendMessage message messages detectedLang newAudioId chatResp
        ttsResp = []
    ∧ ((handleSendMessage message messages detectedLang newAudioId
        chatResp ttsResp).filter isAppend).length = 0
    ∧ ((handleSendMessage message messages detectedLang newAudioId
        chatResp ttsResp).filter isNetCall).length = 0
    ∧ ((handleSendMessage message messages detectedLang newAudioId
        chatResp ttsResp).filter isLoadingOn).length = 0 := by
  have ht : handleSendMessage message messages detectedLang newAudioId
      chatResp ttsResp = [] := by
    simp [handleSendMessage, h]
  simp [ht]

/-- Witness for `empty_input_no_effects` on a whitespace-only input. -/
theorem empty_input_no_effects_witness :
    handleSendMessage "   " [] "en" "audio-1" [] [] = []
    ∧ ((handleSendMessage "   " [] "en" "audio-1" [] []).filter
        isAppend).length = 0
    ∧ ((handleSendMessage "   " [] "en" "audio-1" [] []).filter
        isNetCall).length = 0
    ∧ ((handleSendMessage "   " [] "en" "audio-1" [] []).filter
        isLoadingOn).length = 0 :=
  empty_input_no_effects "   " [] "en" "audio-1" [] [] (by decide)

/-- C10: when the TTS client returns a non-error response that lacks an
`audioPath` field, the turn is not atomic: the Audio Reference is still
updated — `setAudioFile` runs with the path built from
`result.audioId` — yet the controller treats the turn as failed,
surfacing an error notification and appending no avatar Message. -/
theorem tts_no_audioPath_updates_audio_but_errors (message : String)
    (messages : List ChatMsg) (detectedLang newAudioId : String)
    (chatResp ttsResp : JsObj) (hmsg : ¬ jsTrim message = "")
    (hlang : ¬ detectedLang = "")
    (htts : jsTruthy (getField ttsResp "error") = false)
    (hpath : getField ttsResp "audioPath" = JsVal.undefined) :
    Ev.setAudioFile
        ("/audios/" ++ jsInterp (getField ttsResp "audioId") ++ ".mp3") ∈
      handleSendMessage message messages detectedLang newAudioId
        chatResp ttsResp
    ∧ ((handleSendMessage message messages detectedLang newAudioId
        chatResp ttsResp).filter isSetAudio).length = 1
    ∧ ((handleSendMessage message messages detectedLang newAudioId
        chatResp ttsResp).filter isAvatarAppend).length = 0
    ∧ Ev.setError (.str "Erreur lors de la génération de l\x27audio") ∈
      handleSendMessage message messages detectedLang newAudioId
        chatResp ttsResp := by
  rw [handleSendMessage_tts_ok message messages detectedLang newAudioId
    chatResp ttsResp hmsg hlang htts, hpath]
  refine ⟨?_, ?_, ?_, ?_⟩ <;>
    simp [jsTruthy, List.filter, isSetAudio, isAvatarAppend]

/-- Witness for `tts_no_audioPath_updates_audio_but_errors` at a
concrete TTS response `{audioId: "audio-9"}` with no `audioPath`. -/
theorem tts_no_audioPath_witness :
    Ev.setAudioFile ("/audios/" ++
        jsInterp (getField [("audioId", JsVal.str "audio-9")] "audioId")
        ++ ".mp3") ∈
      handleSendMessage "Hello" [] "en" "audio-9"
        [("text", JsVal.str "Hi there")]
        [("audioId", JsVal.str "audio-9")]
    ∧ ((handleSendMessage "Hello" [] "en" "audio-9"
        [("text", JsVal.str "Hi there")]
        [("audioId", JsVal.str "audio-9")]).filter isSetAudio).length = 1
    ∧ ((handleSendMessage "Hello" [] "en" "audio-9"
        [("text", JsVal.str "Hi there")]
        [("audioId", JsVal.str "audio-9")]).filter
        isAvatarAppend).length = 0
    ∧ Ev.setError (.str "Erreur lors de la génération de l\x27audio") ∈
      handleSendMessage "Hello" [] "en" "audio-9"
        [("text", JsVal.str "Hi there")]
        [("audioId", JsVal.str "audio-9")] :=
  tts_no_audioPath_updates_audio_but_errors "Hello" [] "en" "audio-9"
    [("text", JsVal.str "Hi there")] [("audioId", JsVal.str "audio-9")]
    (by decide) (by decide) (by decide) (by decide)

/-- C7 (counterexample to the stated success shape): a concrete
successful STT call returns an object whose fields are exactly
`text`, `lang` and `confidence` — there is no `language` field. -/
theorem stt_success_has_lang_not_language :
    jsTruthy (getField (sttGenerateText true (.resp
        [("text", JsVal.str "bonjour"), ("lang", JsVal.str "fr"),
         ("confidence", JsVal.str "0.93")])).1 "error") = false
    ∧ ((sttGenerateText true (.resp
        [("text", JsVal.str "bonjour"), ("lang", JsVal.str "fr"),
         ("confidence", JsVal.str "0.93")])).1).lookup "language" = none
    ∧ getField (sttGenerateText true (.resp
        [("text", JsVal.str "bonjour"), ("lang", JsVal.str "fr"),
         ("confidence", JsVal.str "0.93")])).1 "lang"
      = JsVal.str "fr" := by
  decide

/-- C7 (amended): `sttService.generateText` fails fast with the local
error sentinel and no network call when the argument is not a `File`;
on success it returns an object with fields `{text, lang, confidence}`
(the upload having happened); and on remote failure it returns the
same error-sentinel shape `{error, message}` rather than raising. -/
theorem sttGenerateText_contract (remote : SttOutcome) (data : JsObj)
    (detail : JsVal) :
    sttGenerateText false remote =
      ([("error", .bool true),
        ("message", .str "Échec lors de la transcription de l\x27audio")],
       false)
    ∧ ((sttGenerateText true (.resp data)).1.map Prod.fst =
        ["text", "lang", "confidence"]
      ∧ (sttGenerateText true (.resp data)).2 = true)
    ∧ ((sttGenerateText true (.httpErr detail)).1.map Prod.fst =
        ["error", "message"]
      ∧ getField (sttGenerateText true (.httpErr detail)).1 "error" =
          .bool true) := by
  refine ⟨rfl, ⟨?_, rfl⟩, ⟨?_, ?_⟩⟩
  · simp [sttGenerateText]
  · by_cases hd : jsTruthy detail = true <;> simp [sttGenerateText, hd]
  · by_cases hd : jsTruthy detail = true <;>
      simp [sttGenerateText, getField, hd]

/-- C8 (counterexample to "persisted copy is removed"): after a reset
from a concrete non-empty state, the `[messages]` persistence effect has
re-written the serialized empty list under the `"chatMessages"` key, so
the key is present again (holding `"[]"`), not removed. -/
theorem resetChat_storage_not_removed :
    (resetChatCycle
        ⟨[⟨JsVal.str "salut", "user"⟩],
         some "[\x7b\"text\":\"salut\",\"sender\":\"user\"\x7d]",
         "fr", true, none⟩).storage = some "[]"
    ∧ (resetChatCycle
        ⟨[⟨JsVal.str "salut", "user"⟩],
         some "[\x7b\"text\":\"salut\",\"sender\":\"user\"\x7d]",
         "fr", true, none⟩).storage ≠ none := by
  decide

/-- C8 (amended): after every invocation of `handleResetChat` the
in-memory message list is empty and the detected language is `"en"`;
the handler itself removes the persisted copy, but the `[messages]`
persistence effect immediately re-writes the (now empty) list, so once
the cycle settles the persisted copy is the serialized empty list
`"[]"` rather than an absent key. -/
theorem resetChat_clears_state (s : UiState) :
    (resetChatCycle s).messages = []
    ∧ (resetChatCycle s).detectedLang = "en"
    ∧ (handleResetChat s).storage = none
    ∧ (resetChatCycle s).storage = some "[]" := by
  refine ⟨rfl, rfl, rfl, ?_⟩
  simp [resetChatCycle, persistMessagesEffect, handleResetChat,
    serializeMessages, String.intercalate]

/-- C9 (failing input): delivering the STT result
`{text: "bonjour", lang: "fr"}` — an object with `lang` present — makes
`handleAudioTranscription` evaluate `langMapping.get(...)` on a plain
object literal, which raises a TypeError before the input box is
populated, so no text is set and no send is scheduled; a plain
transcript string, by contrast, is set and auto-submitted after the
fixed 100 ms delay. -/
theorem transcription_with_lang_throws :
    handleAudioTranscription (.obj
        [("text", JsVal.str "bonjour"), ("lang", JsVal.str "fr")])
      = .error "TypeError: langMapping.get is not a function"
    ∧ handleAudioTranscription (.str "bonjour")
      = .ok [.setMessage (.str "bonjour"), .scheduleSend 100]
    ∧ handleAudioTranscription (.obj [("text", JsVal.str "bonjour")])
      = .ok [.setMessage (.str "bonjour"), .scheduleSend 100] := by
  refine ⟨rfl, rfl, rfl⟩
